import Mathlib

/-!
Verification of the vector-index store and retrieval pipeline of the
`2025-2-DSCD-jungsan-02` lost-and-found search service (`flask-app`).

The Python source is shallowly embedded:

* `services/attribute_extraction.py` and `services/gating.py`: attribute
  dictionaries are association lists from attribute kind (`"color"`,
  `"pattern"`, `"brand"`) to lists of normalized values; the gating scores,
  which are integral in the source (floats `-50.0 … 25.0`), are embedded as
  `Int`.
* `services/reranking.py`: scores are exact rationals (`Rat`) standing for
  the source's floats.
* `app.py`: the FAISS index is modelled by its vector count (`ntotal`) and
  the ordinal-to-item-id mapping dictionary; the FAISS search call itself is
  an environment input (a list of `(ordinal, score)` candidates), and the
  code's post-processing of that list is embedded faithfully.
* persistence (`save_faiss`, `initialize_faiss`, `_try_load_faiss_file`):
  the durable files are modelled by abstract blobs / sizes, with an explicit
  injection point for the first storage primitive that fails.

Korean log strings and the human-readable `reasons` lists of the source are
not modelled; no claim refers to them.
-/

/-! ## Attribute dictionaries (`services/attribute_extraction.py`) -/

/-- A Python attribute dictionary `{'color': [...], 'pattern': [...], ...}`
as an insertion-ordered association list. -/
abbrev AttrDict := List (String × List String)

/-- Python `d.get(k, [])`. -/
def dictGet (d : AttrDict) (k : String) : List String :=
  match d.find? (fun p => p.1 == k) with
  | some p => p.2
  | none => []

/-- `has_attribute_conflict` (attribute_extraction.py lines 55-91): conflict
iff both value lists are non-empty (truthy) and their sets do not intersect. -/
def has_attribute_conflict (query_attrs item_attrs : AttrDict)
    (attribute_type : String) : Bool :=
  let query_values := dictGet query_attrs attribute_type
  let item_values := dictGet item_attrs attribute_type
  if query_values.isEmpty || item_values.isEmpty then
    false
  else if query_values.any (fun v => item_values.contains v) then
    false
  else
    true

/-- Python `bool(set(xs) & set(ys))`: the two value lists share an element. -/
def setsIntersect (xs ys : List String) : Bool :=
  xs.any (fun v => ys.contains v)

/-- `calculate_attribute_match_score` (attribute_extraction.py lines 93-142):
0.4 for a color intersection, 0.3 for pattern, 0.3 for brand, capped at 1. -/
def calculate_attribute_match_score (query_attrs item_attrs : AttrDict) : Rat :=
  let score : Rat :=
    (if !(dictGet query_attrs "color").isEmpty && !(dictGet item_attrs "color").isEmpty
        && setsIntersect (dictGet query_attrs "color") (dictGet item_attrs "color")
     then (4 : Rat)/10 else 0)
    + (if !(dictGet query_attrs "pattern").isEmpty && !(dictGet item_attrs "pattern").isEmpty
        && setsIntersect (dictGet query_attrs "pattern") (dictGet item_attrs "pattern")
     then (3 : Rat)/10 else 0)
    + (if !(dictGet query_attrs "brand").isEmpty && !(dictGet item_attrs "brand").isEmpty
        && setsIntersect (dictGet query_attrs "brand") (dictGet item_attrs "brand")
     then (3 : Rat)/10 else 0)
  min score 1

/-- `calculate_keyword_overlap` (attribute_extraction.py lines 145-170):
Jaccard similarity between the lower-cased keyword set and the item text's
whitespace-tokenized word set. -/
def calculate_keyword_overlap (query_keywords : List String) (item_text : String) : Rat :=
  if query_keywords.isEmpty || item_text.isEmpty then 0
  else
    let item_words := ((item_text.toLower.split (fun c => c.isWhitespace)).filter
      (fun w => !w.isEmpty)).dedup
    let query_words := (query_keywords.map (fun kw => kw.toLower)).dedup
    let inter := query_words.filter (fun w => item_words.contains w)
    let union := query_words ++ item_words.filter (fun w => !query_words.contains w)
    if union.isEmpty then 0
    else (inter.length : Rat) / (union.length : Rat)

/-! ## Gating (`services/gating.py`) -/

/-- `QueryAttributes` (query_understanding.py lines 16-22). `category` is
always `none` in the source (`understand_query` line 254). -/
structure QueryAttributes where
  category : Option String := none
  attributes : AttrDict := []
  keywords : List String := []
  context : List String := []
deriving Repr, DecidableEq

/-- `GatingResult` (gating.py lines 17-24), without the human-readable
`reasons` strings. -/
structure GatingResult where
  item_id : Int
  passed : Bool
  penalty_score : Int
  attribute_bonus : Int
deriving Repr, DecidableEq

def CATEGORY_MISMATCH_PENALTY : Int := -50
def COLOR_CONFLICT_PENALTY : Int := -30
def PATTERN_CONFLICT_PENALTY : Int := -30
def COLOR_MATCH_BONUS : Int := 20
def PATTERN_MATCH_BONUS : Int := 15
def BRAND_MATCH_BONUS : Int := 25
def MIN_SCORE_TO_PASS : Int := -40

/-- `check_category_mismatch` (gating.py lines 39-60); defined but not called
from `gate_item` (the category check was removed, gating.py lines 161-162). -/
def check_category_mismatch (query_category item_category : Option String) :
    Bool × Int :=
  match query_category, item_category with
  | some q, some i => if q != i then (true, CATEGORY_MISMATCH_PENALTY) else (false, 0)
  | _, _ => (false, 0)

/-- `check_attribute_conflicts` (gating.py lines 63-86): the accumulated
penalty (the `reasons` strings are not modelled). -/
def check_attribute_conflicts (query_attrs item_attrs : AttrDict) : Int :=
  (if has_attribute_conflict query_attrs item_attrs "color"
   then COLOR_CONFLICT_PENALTY else 0)
  + (if has_attribute_conflict query_attrs item_attrs "pattern"
     then PATTERN_CONFLICT_PENALTY else 0)

/-- The guard of each bonus branch of `calculate_attribute_bonus`
(gating.py lines 103-127): both value sets truthy and intersecting. -/
def bonusCondition (query_attrs item_attrs : AttrDict) (attribute_type : String) : Bool :=
  !(dictGet query_attrs attribute_type).isEmpty
  && !(dictGet item_attrs attribute_type).isEmpty
  && setsIntersect (dictGet query_attrs attribute_type) (dictGet item_attrs attribute_type)

/-- `calculate_attribute_bonus` (gating.py lines 89-129): the accumulated
bonus. -/
def calculate_attribute_bonus (query_attrs item_attrs : AttrDict) : Int :=
  (if bonusCondition query_attrs item_attrs "color" then COLOR_MATCH_BONUS else 0)
  + (if bonusCondition query_attrs item_attrs "pattern" then PATTERN_MATCH_BONUS else 0)
  + (if bonusCondition query_attrs item_attrs "brand" then BRAND_MATCH_BONUS else 0)

/-- `gate_item` (gating.py lines 132-219) after its attribute-extraction
prelude: lines 164-186 derive `item_attrs` from the item's text via
`extract_attributes_from_text` plus the structured-brand merge; here the
resulting `item_attrs` dictionary is the argument, and the scoring of lines
188-219 is embedded. -/
def gate_item (item_id : Int) (query_attrs : QueryAttributes)
    (item_attrs : AttrDict) : GatingResult :=
  let penalty := check_attribute_conflicts query_attrs.attributes item_attrs
  let bonus := calculate_attribute_bonus query_attrs.attributes item_attrs
  let total_score := penalty + bonus
  let passed := decide (MIN_SCORE_TO_PASS ≤ total_score)
  { item_id := item_id, passed := passed, penalty_score := penalty,
    attribute_bonus := bonus }

/-- `gate_candidates` (gating.py lines 222-264). `item_metadata` maps an item
id to the attribute dictionary that `gate_item`'s extraction prelude yields
for that item's stored text and structured brand. Returns the passed ids and
the recorded `GatingResult`s, both in loop order. -/
def gate_candidates (candidate_item_ids : List Int) (query_attrs : QueryAttributes)
    (item_metadata : List (Int × AttrDict)) :
    List Int × List (Int × GatingResult) :=
  match candidate_item_ids with
  | [] => ([], [])
  | item_id :: rest =>
    let acc := gate_candidates rest query_attrs item_metadata
    match item_metadata.find? (fun p => p.1 == item_id) with
    | none => (item_id :: acc.1, acc.2)
    | some m =>
      let result := gate_item item_id query_attrs m.2
      if result.passed then (item_id :: acc.1, (item_id, result) :: acc.2)
      else (acc.1, (item_id, result) :: acc.2)

/-! ## Reranking (`services/reranking.py`) -/

/-- `RerankingResult` (reranking.py lines 18-26). -/
structure RerankingResult where
  item_id : Int
  final_score : Rat
  semantic_similarity : Rat
  attribute_match_score : Rat
  keyword_overlap : Rat
  gating_bonus : Rat
deriving Repr, DecidableEq

def WEIGHT_SEMANTIC : Rat := (5 : Rat)/10
def WEIGHT_ATTRIBUTE : Rat := (3 : Rat)/10
def WEIGHT_KEYWORD : Rat := (2 : Rat)/10

/-- `normalize_gating_bonus` (reranking.py lines 35-44): divide by the
theoretical maximum 60 = 20 + 15 + 25 and cap at 1 (the `max_bonus == 0`
guard of line 42 is dead since `max_bonus` is the constant 60). -/
def normalize_gating_bonus (gating_bonus : Rat) : Rat :=
  let max_bonus : Rat := 60
  min (gating_bonus / max_bonus) 1

/-- `normalize_semantic_similarity` (reranking.py lines 47-63): linear
min-max normalization of the band 0.3 … 0.95, clamped outside it. -/
def normalize_semantic_similarity (similarity : Rat) : Rat :=
  let min_sim : Rat := (3 : Rat)/10
  let max_sim : Rat := (95 : Rat)/100
  if similarity ≤ min_sim then 0
  else if max_sim ≤ similarity then 1
  else (similarity - min_sim) / (max_sim - min_sim)

/-- Per-item metadata as consumed by `rerank_items` (reranking.py lines
94-126): `attrs` is the attribute dictionary its extraction (lines 100-115,
`extract_attributes_from_text` plus the structured-brand merge) yields, and
`text` is the combined `item_name + " " + description` string of line 99. -/
structure ItemMeta where
  attrs : AttrDict
  text : String
deriving Repr, DecidableEq

/-- The semantic-score lookup `semantic_scores.get(item_id, 0.0)`
(reranking.py line 90). -/
def rerank_semantic (semantic_scores : List (Int × Rat)) (item_id : Int) : Rat :=
  match semantic_scores.find? (fun p => p.1 == item_id) with
  | some p => p.2
  | none => 0

/-- Steps 2-3 of the `rerank_items` loop (reranking.py lines 93-126):
attribute-match score and keyword overlap, both 0 when the item has no
metadata entry. -/
def rerank_attr_kw (query_attrs : QueryAttributes)
    (item_metadata : List (Int × ItemMeta)) (item_id : Int) : Rat × Rat :=
  match item_metadata.find? (fun p => p.1 == item_id) with
  | none => (0, 0)
  | some m =>
    (calculate_attribute_match_score query_attrs.attributes m.2.attrs,
     calculate_keyword_overlap query_attrs.keywords m.2.text)

/-- Step 4 of the `rerank_items` loop (reranking.py lines 128-132): the
normalized gating bonus, 0 when no gating result is recorded for the item. -/
def rerank_gating_bonus (gating_results : List (Int × GatingResult))
    (item_id : Int) : Rat :=
  match gating_results.find? (fun p => p.1 == item_id) with
  | none => 0
  | some g => normalize_gating_bonus ((g.2.attribute_bonus : Int) : Rat)

/-- One iteration of the `rerank_items` loop (reranking.py lines 88-151):
the `RerankingResult` built for one candidate. -/
def rerank_one (query_attrs : QueryAttributes) (semantic_scores : List (Int × Rat))
    (item_metadata : List (Int × ItemMeta))
    (gating_results : List (Int × GatingResult)) (item_id : Int) : RerankingResult :=
  let normalized_semantic :=
    normalize_semantic_similarity (rerank_semantic semantic_scores item_id)
  let attribute_match := (rerank_attr_kw query_attrs item_metadata item_id).1
  let keyword_overlap := (rerank_attr_kw query_attrs item_metadata item_id).2
  let gating_bonus := rerank_gating_bonus gating_results item_id
  let enhanced_attribute := min (attribute_match + gating_bonus * ((2 : Rat)/10)) 1
  let final_score := WEIGHT_SEMANTIC * normalized_semantic
      + WEIGHT_ATTRIBUTE * enhanced_attribute
      + WEIGHT_KEYWORD * keyword_overlap
  { item_id := item_id, final_score := final_score,
    semantic_similarity := normalized_semantic,
    attribute_match_score := attribute_match,
    keyword_overlap := keyword_overlap, gating_bonus := gating_bonus }

/-- The comparison of `results.sort(key=lambda x: x.final_score,
reverse=True)` (reranking.py line 154): descending by final score. -/
def rerankDescending (a b : RerankingResult) : Bool :=
  decide (b.final_score ≤ a.final_score)

/-- `rerank_items` (reranking.py lines 66-156): build one `RerankingResult`
per candidate, then sort them descending by final score with a stable sort
(Python's `list.sort` is stable, also with `reverse=True`). -/
def rerank_items (candidate_item_ids : List Int) (query_attrs : QueryAttributes)
    (semantic_scores : List (Int × Rat)) (item_metadata : List (Int × ItemMeta))
    (gating_results : List (Int × GatingResult)) : List RerankingResult :=
  let results := candidate_item_ids.map
    (rerank_one query_attrs semantic_scores item_metadata gating_results)
  results.mergeSort rerankDescending

/-! ## The FAISS index store (`app.py`) -/

/-- The configured index kinds (`FAISS_INDEX_TYPE`, app.py line 38):
`IndexHNSWFlat` (the default) or `IndexFlatIP`. -/
inductive IndexKind
  | flat
  | hnsw
deriving Repr, DecidableEq

/-- Whether `faiss_index.remove_ids` physically removes vectors for the
kind: `IndexFlat` implements removal; `IndexHNSWFlat` raises the
`remove_ids not implemented` RuntimeError, which `delete_embedding`
catches (app.py lines 1515-1523) and proceeds with only the mapping
removal. -/
def removeIdsWorks : IndexKind → Bool
  | .flat => true
  | .hnsw => false

/-- The in-memory store: the FAISS index abstracted to its vector count
`ntotal`, plus the `id_mapping` dictionary (FAISS ordinal to MySQL item id,
app.py line 51) as an insertion-ordered association list. -/
structure FaissState where
  kind : IndexKind
  ntotal : Nat
  id_mapping : List (Int × Int)
deriving Repr, DecidableEq

/-- Python dict assignment `id_mapping[k] = v`: replace in place, or append
a new entry. -/
def dictInsert (d : List (Int × Int)) (k v : Int) : List (Int × Int) :=
  if d.any (fun p => p.1 == k) then
    d.map (fun p => if p.1 == k then (k, v) else p)
  else
    d ++ [(k, v)]

/-- The FAISS mutation at the core of `create_embedding` (app.py lines
775-790): `faiss_index.add` one vector, `faiss_idx = faiss_index.ntotal - 1`,
`id_mapping[faiss_idx] = item_id`. Returns the new state and `faiss_idx`. -/
def create_embedding (s : FaissState) (item_id : Int) : FaissState × Int :=
  let ntotal' := s.ntotal + 1
  let faiss_idx : Int := (ntotal' : Int) - 1
  ({ s with
      ntotal := ntotal',
      id_mapping := dictInsert s.id_mapping faiss_idx item_id }, faiss_idx)

/-- The FAISS mutation of `delete_embedding` (app.py lines 1502-1539):
collect the ordinals mapped to `item_id`; if none, return 0; otherwise
attempt `remove_ids`, delete the mapping entries, and return the
`deleted_count` the handler computes. `IndexFlat.remove_ids` removes the
selected ordinals that are in range `[0, ntotal)` — ids outside the current
range are silently skipped, and the surviving vectors are compacted and
renumbered, while the code never renumbers `id_mapping`'s keys (so keys go
stale after a Flat removal; the vector contents are not modelled here, only
the count). `IndexHNSWFlat.remove_ids` raises, caught by the code
(app.py lines 1521-1523), removing nothing. The reported `deleted_count`
ignores how many vectors `remove_ids` actually removed: it is the full
ordinal count when `remove_ids` does not raise (app.py line 1519), and the
mapping-removal loop bumps it to at least 1 (app.py line 1532). -/
def delete_embedding (s : FaissState) (item_id : Int) : FaissState × Nat :=
  let faiss_indices_to_delete :=
    (s.id_mapping.filter (fun p => p.2 == item_id)).map (fun p => p.1)
  if faiss_indices_to_delete.isEmpty then
    (s, 0)
  else
    let physically_removed :=
      if removeIdsWorks s.kind then
        (faiss_indices_to_delete.filter
          (fun k => 0 ≤ k && k < (s.ntotal : Int))).length
      else 0
    let deleted_count0 :=
      if removeIdsWorks s.kind then faiss_indices_to_delete.length else 0
    let id_mapping' := s.id_mapping.filter (fun p => !(p.2 == item_id))
    let deleted_count := max deleted_count0 1
    ({ s with
        ntotal := s.ntotal - physically_removed,
        id_mapping := id_mapping' }, deleted_count)

/-- `SIMILARITY_THRESHOLD` (app.py line 46), default 0.3. -/
def SIMILARITY_THRESHOLD : Rat := mkRat 3 10

/-- `MIN_RESULTS_TO_RETURN` (app.py line 47), default 3. The constant is
declared in the source but referenced nowhere else in the repository. -/
def MIN_RESULTS_TO_RETURN : Nat := 3

/-- The oversampled FAISS search width `k = min(max(top_k * 3, top_k + 50),
faiss_index.ntotal)` (app.py line 1084). -/
def search_k (top_k ntotal : Nat) : Nat :=
  min (max (top_k * 3) (top_k + 50)) ntotal

/-- The candidate-filtering loop of `search_embedding` (app.py lines
1109-1135): walk the FAISS candidates `(ordinal, score)` in order; stop once
`top_k` results are collected; skip ordinal -1; skip ordinals absent from
`id_mapping`; keep a candidate only if its score reaches
`SIMILARITY_THRESHOLD`, recording the mapped item id and the score. -/
def search_filter (id_mapping : List (Int × Int)) :
    Nat → List (Int × Rat) → List Int × List Rat
  | _, [] => ([], [])
  | 0, _ :: _ => ([], [])
  | budget + 1, (idx, dist) :: rest =>
    if idx == -1 then
      search_filter id_mapping (budget + 1) rest
    else
      match id_mapping.find? (fun p => p.1 == idx) with
      | none => search_filter id_mapping (budget + 1) rest
      | some m =>
        if SIMILARITY_THRESHOLD ≤ dist then
          let acc := search_filter id_mapping budget rest
          (m.2 :: acc.1, dist :: acc.2)
        else
          search_filter id_mapping (budget + 1) rest

/-- The result computation of `search_embedding` (app.py lines 1009-1160)
after the embedding call: empty result when the index is empty (line 1070)
or when FAISS returned no valid ordinal (lines 1100-1103), otherwise the
filtered candidate list. `cands` is the `(ordinal, score)` list FAISS
returns for the query vector. -/
def search_embedding (s : FaissState) (top_k : Nat)
    (cands : List (Int × Rat)) : List Int × List Rat :=
  if s.ntotal == 0 then ([], [])
  else if cands.all (fun c => c.1 == -1) then ([], [])
  else search_filter s.id_mapping top_k cands

/-! ## Snapshot load and corruption recovery (`app.py` lines 121-335) -/

def FAISS_INDEX_PATH : String := "/app/faiss-data/faiss_index.idx"
def FAISS_MAPPING_PATH : String := "/app/faiss-data/id_mapping.pkl"

/-- The durable index snapshot file as `_try_load_faiss_file` observes it:
its byte size, whether `faiss.read_index` succeeds on it, and the loaded
index's kind and vector count when it does. -/
structure IndexFile where
  kind : IndexKind
  size : Nat
  readOk : Bool
  ntotal : Nat
deriving Repr, DecidableEq

/-- The durable mapping snapshot file: whether `pickle.load` succeeds, and
the loaded dictionary when it does. -/
structure MappingFile where
  readOk : Bool
  mapping : List (Int × Int)
deriving Repr, DecidableEq

/-- `_try_load_faiss_file` (app.py lines 121-179): fail when a file is
missing, the index file is zero-length, either read fails, or the loaded
index's `ntotal` differs from the mapping's size; otherwise the loaded
store. -/
def try_load_faiss_file (ix : Option IndexFile) (mp : Option MappingFile) :
    Option FaissState :=
  match ix, mp with
  | some ixf, some mpf =>
    if ixf.size == 0 then none
    else if !ixf.readOk then none
    else if !mpf.readOk then none
    else if ixf.ntotal != mpf.mapping.length then none
    else some { kind := ixf.kind, ntotal := ixf.ntotal, id_mapping := mpf.mapping }
  | _, _ => none

/-- A fresh empty index of the configured kind (app.py lines 278-300). -/
def emptyIndex (configured_kind : IndexKind) : FaissState :=
  { kind := configured_kind, ntotal := 0, id_mapping := [] }

/-- The outcome of `initialize_faiss`: the in-memory store, the snapshot
files now present on disk (by path), and whether the call raised. -/
structure InitResult where
  state : FaissState
  files : List String
  threw : Bool
deriving Repr, DecidableEq

/-- `initialize_faiss` (app.py lines 181-335), after lock acquisition: load
the snapshot; on success keep it; on failure with snapshot files present,
rename each present file aside to `<path>.corrupted_<timestamp>` (app.py
lines 250-275; the `shutil.move` is modelled as succeeding — on a move
failure the source instead deletes the file with a logged message) and fall
back to a fresh empty index; with no files present, start empty. The
enclosing `try/except` (lines 301-325) means no branch raises. -/
def initialize_faiss (configured_kind : IndexKind) (ix : Option IndexFile)
    (mp : Option MappingFile) (timestamp : String) : InitResult :=
  match try_load_faiss_file ix mp with
  | some st => { state := st, files := [FAISS_INDEX_PATH, FAISS_MAPPING_PATH],
                 threw := false }
  | none =>
    if ix.isSome || mp.isSome then
      { state := emptyIndex configured_kind,
        files := (if ix.isSome then [FAISS_INDEX_PATH ++ ".corrupted_" ++ timestamp]
                  else [])
              ++ (if mp.isSome then [FAISS_MAPPING_PATH ++ ".corrupted_" ++ timestamp]
                  else []),
        threw := false }
    else
      { state := emptyIndex configured_kind, files := [], threw := false }

/-! ## Atomic snapshot save (`save_faiss`, app.py lines 337-423) -/

/-- A snapshot file's content: its byte size and an identity token
distinguishing the previous snapshot's content from the new one's. -/
structure FileBlob where
  size : Nat
  ver : Nat
deriving Repr, DecidableEq

/-- The snapshot directory during `save_faiss`: the two active files, the
two `.tmp` files and the `.backup` copy, each `none` when absent. -/
structure SaveDisk where
  activeIndex : Option FileBlob
  activeMapping : Option FileBlob
  tempIndex : Option FileBlob
  tempMapping : Option FileBlob
  backupIndex : Option FileBlob
deriving Repr, DecidableEq

/-- The storage primitives of `save_faiss` that can raise; the error handler
of app.py lines 414-423 runs when one does. The backup `copy2` is excluded
because its failure is swallowed (lines 386-387), and the post-move
re-verification of lines 393-402 is excluded because in a single-process
run it reads back exactly what was just moved into place. -/
inductive SaveOp
  | writeTempIndex
  | writeTempMapping
  | moveIndex
  | moveMapping
deriving Repr, DecidableEq

/-- The temp-file cleanup of the error handler (app.py lines 415-421). -/
def cleanupTemps (d : SaveDisk) : SaveDisk :=
  { d with tempIndex := none, tempMapping := none }

/-- `save_faiss` (app.py lines 337-423) under the file lock, with `failAt`
the first storage primitive to raise (`none` for an error-free run) and
`diskFull` the free-space pre-check of lines 358-362. Returns the resulting
snapshot directory and whether the call raised. In order: disk-space check;
write both `.tmp` files; verify the temp index file is non-empty (lines
374-377); back up the active index (lines 379-387); `shutil.move` the temp
index, then the temp mapping, over the active paths (lines 389-391). Any
raise runs the cleanup of lines 414-421 and re-raises. -/
def save_faiss (d : SaveDisk) (newIndex newMapping : FileBlob)
    (diskFull : Bool) (failAt : Option SaveOp) : SaveDisk × Bool :=
  if diskFull then (cleanupTemps d, true)
  else if failAt = some SaveOp.writeTempIndex then (cleanupTemps d, true)
  else
    let d1 := { d with tempIndex := some newIndex }
    if failAt = some SaveOp.writeTempMapping then (cleanupTemps d1, true)
    else
      let d2 := { d1 with tempMapping := some newMapping }
      if newIndex.size = 0 then (cleanupTemps d2, true)
      else
        let d3 := { d2 with backupIndex :=
          if d2.activeIndex.isSome then d2.activeIndex else d2.backupIndex }
        if failAt = some SaveOp.moveIndex then (cleanupTemps d3, true)
        else
          let d4 := { d3 with activeIndex := some newIndex, tempIndex := none }
          if failAt = some SaveOp.moveMapping then (cleanupTemps d4, true)
          else
            let d5 := { d4 with
                activeMapping := some newMapping,
                tempMapping := none }
            (d5, false)

/-! ## Spec-side predicates (for stating the claims) -/

/-- Spec wording for an attribute kind in conflict: both sides have a
non-empty value set for the kind and the sets are disjoint. -/
def AttrConflict (query_attrs item_attrs : AttrDict) (attribute_type : String) : Prop :=
  dictGet query_attrs attribute_type ≠ []
  ∧ dictGet item_attrs attribute_type ≠ []
  ∧ ∀ x ∈ dictGet query_attrs attribute_type, x ∉ dictGet item_attrs attribute_type

instance (q i : AttrDict) (t : String) : Decidable (AttrConflict q i t) := by
  unfold AttrConflict
  infer_instance

/-- Spec wording for an attribute kind with a positive match: the two value
sets share an element. -/
def AttrPositiveMatch (query_attrs item_attrs : AttrDict) (attribute_type : String) : Prop :=
  ∃ x ∈ dictGet query_attrs attribute_type, x ∈ dictGet item_attrs attribute_type

instance (q i : AttrDict) (t : String) : Decidable (AttrPositiveMatch q i t) := by
  unfold AttrPositiveMatch
  infer_instance

/-! ## Helper lemmas -/

theorem has_attribute_conflict_iff (query_attrs item_attrs : AttrDict)
    (attribute_type : String) :
    has_attribute_conflict query_attrs item_attrs attribute_type = true
      ↔ AttrConflict query_attrs item_attrs attribute_type := by
  by_cases hq : dictGet query_attrs attribute_type = []
  · simp [has_attribute_conflict, AttrConflict, hq]
  · by_cases hi : dictGet item_attrs attribute_type = []
    · simp [has_attribute_conflict, AttrConflict, hq, hi]
    · by_cases hx : ∃ x ∈ dictGet query_attrs attribute_type,
          x ∈ dictGet item_attrs attribute_type
      · obtain ⟨x, hxq, hxi⟩ := hx
        have hany : (dictGet query_attrs attribute_type).any
            (fun v => (dictGet item_attrs attribute_type).contains v) = true := by
          simp only [List.any_eq_true]
          exact ⟨x, hxq, by simpa using hxi⟩
        simp only [has_attribute_conflict, AttrConflict,
          List.isEmpty_eq_false.mpr hq, List.isEmpty_eq_false.mpr hi, hany]
        constructor
        · intro hcontr
          exact absurd hcontr (by simp)
        · rintro ⟨-, -, hdisj⟩
          exact absurd hxi (hdisj x hxq)
      · have hany : (dictGet query_attrs attribute_type).any
            (fun v => (dictGet item_attrs attribute_type).contains v) = false := by
          rw [Bool.eq_false_iff]
          intro hco
          apply hx
          simp only [List.any_eq_true] at hco
          obtain ⟨x, hxq, hxi⟩ := hco
          exact ⟨x, hxq, by simpa using hxi⟩
        have hdisj : ∀ x ∈ dictGet query_attrs attribute_type,
            x ∉ dictGet item_attrs attribute_type := by
          intro x hxq hxi
          exact hx ⟨x, hxq, hxi⟩
        simp [has_attribute_conflict, AttrConflict,
          List.isEmpty_eq_false.mpr hq, List.isEmpty_eq_false.mpr hi, hany, hq, hi,
          hdisj]

theorem bonusCondition_iff (query_attrs item_attrs : AttrDict)
    (attribute_type : String) :
    bonusCondition query_attrs item_attrs attribute_type = true
      ↔ AttrPositiveMatch query_attrs item_attrs attribute_type := by
  constructor
  · intro h
    unfold bonusCondition at h
    have hc := (Bool.and_eq_true _ _ |>.mp h).2
    unfold setsIntersect at hc
    simp only [List.any_eq_true] at hc
    obtain ⟨x, hxq, hxi⟩ := hc
    exact ⟨x, hxq, by simpa using hxi⟩
  · rintro ⟨x, hxq, hxi⟩
    unfold bonusCondition setsIntersect
    rw [Bool.and_eq_true, Bool.and_eq_true]
    refine ⟨⟨?_, ?_⟩, ?_⟩
    · simp [List.isEmpty_eq_false.mpr (List.ne_nil_of_mem hxq)]
    · simp [List.isEmpty_eq_false.mpr (List.ne_nil_of_mem hxi)]
    · simp only [List.any_eq_true]
      exact ⟨x, hxq, by simpa using hxi⟩

theorem rerank_one_item_id (q : QueryAttributes) (ss : List (Int × Rat))
    (m : List (Int × ItemMeta)) (gs : List (Int × GatingResult)) (c : Int) :
    (rerank_one q ss m gs c).item_id = c := rfl

theorem rerank_items_item_id_mem (ids : List Int) (q : QueryAttributes)
    (ss : List (Int × Rat)) (m : List (Int × ItemMeta))
    (gs : List (Int × GatingResult)) (r : RerankingResult)
    (hr : r ∈ rerank_items ids q ss m gs) : r.item_id ∈ ids := by
  unfold rerank_items at hr
  rw [(List.mergeSort_perm _ _).mem_iff] at hr
  obtain ⟨c, hc, rfl⟩ := List.mem_map.mp hr
  simpa [rerank_one_item_id] using hc

theorem gate_candidates_results_none (ids : List Int) (q : QueryAttributes)
    (meta : List (Int × AttrDict)) (item_id : Int)
    (hnone : meta.find? (fun p => p.1 == item_id) = none) :
    (gate_candidates ids q meta).2.find? (fun p => p.1 == item_id) = none := by
  induction ids with
  | nil => simp [gate_candidates]
  | cons a rest ih =>
    rw [gate_candidates]
    rcases hfa : meta.find? (fun p => p.1 == a) with _ | m
    · simpa [hfa] using ih
    · have hne : (a == item_id) = false := by
        rw [beq_eq_false_iff_ne]
        intro h
        subst h
        rw [hfa] at hnone
        cases hnone
      by_cases hp : (gate_item a q m.2).passed = true
      · simp [hfa, hp, List.find?, hne, ih]
      · simp [hfa, hp, List.find?, hne, ih]

theorem gate_candidates_mem_of_no_metadata (ids : List Int) (q : QueryAttributes)
    (meta : List (Int × AttrDict)) (item_id : Int)
    (hmem : item_id ∈ ids)
    (hnone : meta.find? (fun p => p.1 == item_id) = none) :
    item_id ∈ (gate_candidates ids q meta).1 := by
  induction ids with
  | nil => cases hmem
  | cons a rest ih =>
    rw [gate_candidates]
    rcases List.mem_cons.mp hmem with rfl | hmem'
    · simp [hnone]
    · rcases hfa : meta.find? (fun p => p.1 == a) with _ | m
      · simp only [hfa]
        exact List.mem_cons_of_mem a (ih hmem')
      · by_cases hp : (gate_item a q m.2).passed = true
        · simp only [hfa, hp, if_true]
          exact List.mem_cons_of_mem a (ih hmem')
        · simp only [hfa, hp, if_false]
          exact ih hmem'

theorem gate_candidates_not_passed (ids : List Int) (q : QueryAttributes)
    (meta : List (Int × AttrDict)) (item_id : Int) (item_attrs : AttrDict)
    (hfind : meta.find? (fun p => p.1 == item_id) = some (item_id, item_attrs))
    (hfail : (gate_item item_id q item_attrs).passed = false) :
    item_id ∉ (gate_candidates ids q meta).1 := by
  induction ids with
  | nil => simp [gate_candidates]
  | cons a rest ih =>
    rw [gate_candidates]
    by_cases ha : a = item_id
    · subst ha
      simp only [hfind, hfail]
      simpa using ih
    · rcases hfa : meta.find? (fun p => p.1 == a) with _ | m
      · simp only [hfa, List.mem_cons, not_or]
        exact ⟨fun h => ha h.symm, ih⟩
      · by_cases hp : (gate_item a q m.2).passed = true
        · simp only [hfa, hp, if_true, List.mem_cons, not_or]
          exact ⟨fun h => ha h.symm, ih⟩
        · simp only [hfa, hp, if_false]
          exact ih

/-! ## Claim theorems -/

/-- C6: `has_attribute_conflict` returns true if and only if both the query
side's and the item side's value sets for the attribute kind are non-empty
and their intersection is empty; whenever either side's value set is empty
(or the kind is absent, which `dictGet` reads as the empty list), the result
is false. -/
theorem has_attribute_conflict_correct (query_attrs item_attrs : AttrDict)
    (attribute_type : String) :
    (has_attribute_conflict query_attrs item_attrs attribute_type = true
      ↔ AttrConflict query_attrs item_attrs attribute_type)
    ∧ ((dictGet query_attrs attribute_type = []
          ∨ dictGet item_attrs attribute_type = [])
        → has_attribute_conflict query_attrs item_attrs attribute_type = false) := by
  refine ⟨has_attribute_conflict_iff query_attrs item_attrs attribute_type, ?_⟩
  rintro (hq | hi)
  · simp [has_attribute_conflict, hq]
  · simp [has_attribute_conflict, hi]

/-- C5: gating computes the penalty as the sum of the fixed negative weights
of the attribute kinds in conflict (color -30, pattern -30) and the bonus as
the sum of the fixed positive weights of the positively matching kinds
(color +20, pattern +15, brand +25); the candidate passes iff
penalty + bonus is at least the -40 floor, and a candidate failing the floor
is absent from the gated candidate list and hence from the reranked output. -/
theorem gate_item_score_rule (item_id : Int) (q : QueryAttributes)
    (item_attrs : AttrDict) :
    ((gate_item item_id q item_attrs).penalty_score
        = (if AttrConflict q.attributes item_attrs "color"
           then COLOR_CONFLICT_PENALTY else 0)
          + (if AttrConflict q.attributes item_attrs "pattern"
             then PATTERN_CONFLICT_PENALTY else 0))
    ∧ ((gate_item item_id q item_attrs).attribute_bonus
        = (if AttrPositiveMatch q.attributes item_attrs "color"
           then COLOR_MATCH_BONUS else 0)
          + (if AttrPositiveMatch q.attributes item_attrs "pattern"
             then PATTERN_MATCH_BONUS else 0)
          + (if AttrPositiveMatch q.attributes item_attrs "brand"
             then BRAND_MATCH_BONUS else 0))
    ∧ ((gate_item item_id q item_attrs).passed = true
        ↔ MIN_SCORE_TO_PASS ≤ (gate_item item_id q item_attrs).penalty_score
            + (gate_item item_id q item_attrs).attribute_bonus)
    ∧ ((gate_item item_id q item_attrs).passed = false
        → ∀ (ids : List Int) (meta : List (Int × AttrDict)),
            meta.find? (fun p => p.1 == item_id) = some (item_id, item_attrs)
            → item_id ∉ (gate_candidates ids q meta).1
              ∧ ∀ (ss : List (Int × Rat)) (m2 : List (Int × ItemMeta))
                  (gs : List (Int × GatingResult)),
                  ∀ r ∈ rerank_items (gate_candidates ids q meta).1 q ss m2 gs,
                    r.item_id ≠ item_id) := by
  refine ⟨?_, ?_, ?_, ?_⟩
  · show check_attribute_conflicts q.attributes item_attrs = _
    unfold check_attribute_conflicts
    rw [if_congr (has_attribute_conflict_iff q.attributes item_attrs "color") rfl rfl,
        if_congr (has_attribute_conflict_iff q.attributes item_attrs "pattern") rfl rfl]
  · show calculate_attribute_bonus q.attributes item_attrs = _
    unfold calculate_attribute_bonus
    rw [if_congr (bonusCondition_iff q.attributes item_attrs "color") rfl rfl,
        if_congr (bonusCondition_iff q.attributes item_attrs "pattern") rfl rfl,
        if_congr (bonusCondition_iff q.attributes item_attrs "brand") rfl rfl]
  · rw [show (gate_item item_id q item_attrs).passed
        = decide (MIN_SCORE_TO_PASS ≤ (gate_item item_id q item_attrs).penalty_score
            + (gate_item item_id q item_attrs).attribute_bonus) from rfl,
        decide_eq_true_iff]
  · intro hfail ids meta hfind
    refine ⟨gate_candidates_not_passed ids q meta item_id item_attrs hfind hfail, ?_⟩
    intro ss m2 gs r hr hcontra
    have hmem := rerank_items_item_id_mem _ q ss m2 gs r hr
    rw [hcontra] at hmem
    exact gate_candidates_not_passed ids q meta item_id item_attrs hfind hfail hmem

/-- C10: in `gate_candidates`, a candidate id with no entry in
`item_metadata` is passed through unconditionally: it appears in the passed
list and no `GatingResult` is recorded for it, so attribute conflicts can
never exclude a candidate with missing metadata. -/
theorem gate_candidates_missing_metadata (ids : List Int) (q : QueryAttributes)
    (meta : List (Int × AttrDict)) (item_id : Int)
    (hmem : item_id ∈ ids)
    (hnone : meta.find? (fun p => p.1 == item_id) = none) :
    item_id ∈ (gate_candidates ids q meta).1
    ∧ (gate_candidates ids q meta).2.find? (fun p => p.1 == item_id) = none :=
  ⟨gate_candidates_mem_of_no_metadata ids q meta item_id hmem hnone,
   gate_candidates_results_none ids q meta item_id hnone⟩

/-- Witness for C10 at a concrete input: candidate 7 has no metadata entry
and is passed through with no gating record. -/
theorem gate_candidates_missing_metadata_witness :
    (7 : Int) ∈ (gate_candidates [3, 7] ⟨none, [("color", ["black"])], [], []⟩
        [((3 : Int), [("color", ["white"])])]).1
    ∧ (gate_candidates [3, 7] ⟨none, [("color", ["black"])], [], []⟩
        [((3 : Int), [("color", ["white"])])]).2.find? (fun p => p.1 == 7) = none :=
  gate_candidates_missing_metadata [3, 7] ⟨none, [("color", ["black"])], [], []⟩
    [((3 : Int), [("color", ["white"])])] 7 (by decide) (by decide)

theorem rerankDescending_trans (a b c : RerankingResult)
    (hab : rerankDescending a b = true) (hbc : rerankDescending b c = true) :
    rerankDescending a c = true := by
  unfold rerankDescending at hab hbc ⊢
  rw [decide_eq_true_iff] at hab hbc ⊢
  exact le_trans hbc hab

theorem rerankDescending_total (a b : RerankingResult) :
    (rerankDescending a b || rerankDescending b a) = true := by
  unfold rerankDescending
  rcases le_total a.final_score b.final_score with h | h <;> simp [h]

theorem rerank_one_final_score (q : QueryAttributes) (ss : List (Int × Rat))
    (m : List (Int × ItemMeta)) (gs : List (Int × GatingResult)) (c : Int) :
    (rerank_one q ss m gs c).final_score
      = WEIGHT_SEMANTIC * (rerank_one q ss m gs c).semantic_similarity
        + WEIGHT_ATTRIBUTE * min ((rerank_one q ss m gs c).attribute_match_score
            + (rerank_one q ss m gs c).gating_bonus * ((2 : Rat)/10)) 1
        + WEIGHT_KEYWORD * (rerank_one q ss m gs c).keyword_overlap := rfl

theorem normalize_semantic_similarity_nonneg (x : Rat) :
    0 ≤ normalize_semantic_similarity x := by
  simp only [normalize_semantic_similarity]
  split_ifs with h1 h2
  · norm_num
  · norm_num
  · push_neg at h1
    exact div_nonneg (by linarith) (by norm_num)

theorem normalize_semantic_similarity_le_one (x : Rat) :
    normalize_semantic_similarity x ≤ 1 := by
  simp only [normalize_semantic_similarity]
  split_ifs with h1 h2
  · norm_num
  · norm_num
  · push_neg at h2
    rw [div_le_one (by norm_num)]
    linarith

theorem normalize_semantic_similarity_mono {s1 s2 : Rat} (h : s1 ≤ s2) :
    normalize_semantic_similarity s1 ≤ normalize_semantic_similarity s2 := by
  rcases le_or_lt s1 ((3 : Rat)/10) with h1 | h1
  · have e : normalize_semantic_similarity s1 = 0 := by
      simp only [normalize_semantic_similarity]
      rw [if_pos h1]
    rw [e]
    exact normalize_semantic_similarity_nonneg s2
  · rcases le_or_lt ((95 : Rat)/100) s2 with h2 | h2
    · have e : normalize_semantic_similarity s2 = 1 := by
        simp only [normalize_semantic_similarity]
        rw [if_neg (by linarith), if_pos h2]
      rw [e]
      exact normalize_semantic_similarity_le_one s1
    · have e1 : normalize_semantic_similarity s1
          = (s1 - (3 : Rat)/10) / ((95 : Rat)/100 - (3 : Rat)/10) := by
        simp only [normalize_semantic_similarity]
        rw [if_neg (by linarith), if_neg (by linarith)]
      have e2 : normalize_semantic_similarity s2
          = (s2 - (3 : Rat)/10) / ((95 : Rat)/100 - (3 : Rat)/10) := by
        simp only [normalize_semantic_similarity]
        rw [if_neg (by linarith), if_neg (by linarith)]
      rw [e1, e2]
      have hpos : (0 : Rat) < (95 : Rat)/100 - (3 : Rat)/10 := by norm_num
      exact (div_le_div_iff_of_pos_right hpos).mpr (by linarith)

/-- C7: the reranking result list is a permutation of the per-candidate
results; it is sorted descending by final score; every result's final score
is 0.5 x normalized semantic + 0.3 x min(attribute match + 0.2 x normalized
gating bonus, 1) + 0.2 x keyword overlap; ties keep candidate insertion
order (stable sort); semantic similarity is normalized linearly from the
band 0.3 … 0.95 and clamped outside it, and the gating bonus is normalized
by the theoretical maximum 60. -/
theorem rerank_items_correct (ids : List Int) (q : QueryAttributes)
    (ss : List (Int × Rat)) (m : List (Int × ItemMeta))
    (gs : List (Int × GatingResult)) :
    List.Perm (rerank_items ids q ss m gs) (ids.map (rerank_one q ss m gs))
    ∧ List.Pairwise (fun a b => b.final_score ≤ a.final_score)
        (rerank_items ids q ss m gs)
    ∧ (∀ r ∈ rerank_items ids q ss m gs,
        r.final_score = (5 : Rat)/10 * r.semantic_similarity
          + (3 : Rat)/10 * min (r.attribute_match_score
              + r.gating_bonus * ((2 : Rat)/10)) 1
          + (2 : Rat)/10 * r.keyword_overlap)
    ∧ (∀ a b : RerankingResult,
        List.Sublist [a, b] (ids.map (rerank_one q ss m gs))
        → a.final_score = b.final_score
        → List.Sublist [a, b] (rerank_items ids q ss m gs))
    ∧ (∀ x : Rat, x ≤ (3 : Rat)/10 → normalize_semantic_similarity x = 0)
    ∧ (∀ x : Rat, (95 : Rat)/100 ≤ x → normalize_semantic_similarity x = 1)
    ∧ (∀ x : Rat, (3 : Rat)/10 < x → x < (95 : Rat)/100
        → normalize_semantic_similarity x
            = (x - (3 : Rat)/10) / ((95 : Rat)/100 - (3 : Rat)/10))
    ∧ (∀ bv : Rat, normalize_gating_bonus bv = min (bv / 60) 1) := by
  have h310 : (3 : Rat)/10 < (95 : Rat)/100 := by norm_num
  refine ⟨?_, ?_, ?_, ?_, ?_, ?_, ?_, ?_⟩
  · unfold rerank_items
    exact List.mergeSort_perm _ _
  · unfold rerank_items
    exact (List.sorted_mergeSort rerankDescending_trans rerankDescending_total
      (ids.map (rerank_one q ss m gs))).imp
      (fun hab => by
        unfold rerankDescending at hab
        exact decide_eq_true_iff.mp hab)
  · intro r hr
    unfold rerank_items at hr
    rw [(List.mergeSort_perm _ _).mem_iff] at hr
    obtain ⟨c, hc, rfl⟩ := List.mem_map.mp hr
    exact rerank_one_final_score q ss m gs c
  · intro a b hsub heq
    unfold rerank_items
    refine List.sublist_mergeSort rerankDescending_trans rerankDescending_total
      ?_ hsub
    simp [List.pairwise_cons, rerankDescending, heq]
  · intro x hx
    simp only [normalize_semantic_similarity]
    rw [if_pos hx]
  · intro x hx
    simp only [normalize_semantic_similarity]
    rw [if_neg (by linarith), if_pos hx]
  · intro x hx1 hx2
    simp only [normalize_semantic_similarity]
    rw [if_neg (by linarith), if_neg (by linarith)]
  · intro bv
    rfl

/-- C8: increasing the raw semantic similarity of a candidate while holding
its metadata and gating signals fixed never decreases its final reranking
score. -/
theorem rerank_semantic_monotone (q : QueryAttributes) (m : List (Int × ItemMeta))
    (gs : List (Int × GatingResult)) (item_id : Int) (s1 s2 : Rat)
    (h : s1 ≤ s2) :
    (rerank_one q [(item_id, s1)] m gs item_id).final_score
      ≤ (rerank_one q [(item_id, s2)] m gs item_id).final_score := by
  have hfind : ∀ s : Rat, rerank_semantic [(item_id, s)] item_id = s := by
    intro s
    simp [rerank_semantic]
  have e : ∀ s : Rat, (rerank_one q [(item_id, s)] m gs item_id).final_score
      = WEIGHT_SEMANTIC * normalize_semantic_similarity s
        + (WEIGHT_ATTRIBUTE * min ((rerank_attr_kw q m item_id).1
            + rerank_gating_bonus gs item_id * ((2 : Rat)/10)) 1
          + WEIGHT_KEYWORD * (rerank_attr_kw q m item_id).2) := by
    intro s
    rw [show (rerank_one q [(item_id, s)] m gs item_id).final_score
        = WEIGHT_SEMANTIC * normalize_semantic_similarity
            (rerank_semantic [(item_id, s)] item_id)
          + WEIGHT_ATTRIBUTE * min ((rerank_attr_kw q m item_id).1
              + rerank_gating_bonus gs item_id * ((2 : Rat)/10)) 1
          + WEIGHT_KEYWORD * (rerank_attr_kw q m item_id).2 from rfl,
      hfind s, add_assoc]
  rw [e s1, e s2]
  refine add_le_add_right ?_ _
  exact mul_le_mul_of_nonneg_left (normalize_semantic_similarity_mono h)
    (by norm_num [WEIGHT_SEMANTIC])

/-- Witness for C8 at a concrete input: raising the raw similarity from 0 to
1 does not decrease the final score of candidate 1. -/
theorem rerank_semantic_monotone_witness :
    (rerank_one ⟨none, [], [], []⟩ [((1 : Int), (0 : Rat))] [] [] 1).final_score
      ≤ (rerank_one ⟨none, [], [], []⟩ [((1 : Int), (1 : Rat))] [] [] 1).final_score :=
  rerank_semantic_monotone ⟨none, [], [], []⟩ [] [] 1 0 1 (by norm_num)

theorem length_filter_add_length_filter_not {α : Type} (l : List α) (p : α → Bool) :
    (l.filter p).length + (l.filter (fun a => !p a)).length = l.length := by
  induction l with
  | nil => simp
  | cons a t ih =>
    by_cases h : p a = true <;> simp [List.filter_cons, h] <;> omega

theorem delete_embedding_of_present (s : FaissState) (item_id : Int)
    (h : s.id_mapping.filter (fun p => p.2 == item_id) ≠ []) :
    delete_embedding s item_id
      = ({ kind := s.kind,
           ntotal := s.ntotal - (if removeIdsWorks s.kind
             then (((s.id_mapping.filter (fun p => p.2 == item_id)).map
                 (fun p => p.1)).filter
               (fun k => 0 ≤ k && k < (s.ntotal : Int))).length
             else 0),
           id_mapping := s.id_mapping.filter (fun p => !(p.2 == item_id)) },
         max (if removeIdsWorks s.kind
             then (s.id_mapping.filter (fun p => p.2 == item_id)).length else 0) 1) := by
  unfold delete_embedding
  rw [if_neg (by simp [List.isEmpty_iff, List.map_eq_nil_iff, h])]
  simp [List.length_map]

theorem delete_embedding_removes_value (s : FaissState) (item_id : Int) :
    ∀ p ∈ (delete_embedding s item_id).1.id_mapping, p.2 ≠ item_id := by
  intro p hp
  by_cases h : s.id_mapping.filter (fun p => p.2 == item_id) = []
  · have hsame : (delete_embedding s item_id).1 = s := by
      unfold delete_embedding
      rw [if_pos (by simp [List.isEmpty_iff, List.map_eq_nil_iff, h])]
  -- in this branch there was nothing to delete, so no entry has the value
    rw [hsame] at hp
    have := List.filter_eq_nil_iff.mp h p hp
    simpa using this
  · rw [delete_embedding_of_present s item_id h] at hp
    have := (List.mem_filter.mp hp).2
    simpa using this

theorem delete_embedding_zero_of_absent (s : FaissState) (item_id : Int)
    (h : ∀ p ∈ s.id_mapping, p.2 ≠ item_id) :
    (delete_embedding s item_id).2 = 0 := by
  have hfil : s.id_mapping.filter (fun p => p.2 == item_id) = [] := by
    rw [List.filter_eq_nil_iff]
    intro p hp
    simp [h p hp]
  unfold delete_embedding
  rw [if_pos (by simp [List.isEmpty_iff, List.map_eq_nil_iff, hfil])]

theorem search_filter_not_mem (mapping : List (Int × Int)) (x : Int)
    (hx : ∀ p ∈ mapping, p.2 ≠ x) (k : Nat) (cands : List (Int × Rat)) :
    x ∉ (search_filter mapping k cands).1 := by
  induction cands generalizing k with
  | nil => simp [search_filter]
  | cons c rest ih =>
    obtain ⟨idx, dist⟩ := c
    cases k with
    | zero => simp [search_filter]
    | succ b =>
      rw [search_filter]
      by_cases hidx : (idx == -1) = true
      · simpa [hidx] using ih (b + 1)
      · rcases hf : mapping.find? (fun p => p.1 == idx) with _ | m
        · simpa [hidx, hf] using ih (b + 1)
        · have hm : m.2 ≠ x := hx m (List.mem_of_find?_eq_some hf)
          by_cases hthr : SIMILARITY_THRESHOLD ≤ dist
          · simp only [hidx, hf, hthr, Bool.false_eq_true, if_false, if_true,
              List.mem_cons, not_or]
            exact ⟨fun hcontra => hm hcontra.symm, ih b⟩
          · simpa [hidx, hf, hthr] using ih (b + 1)

/-- C1 fails on the code: on the default HNSW index kind, adding one vector
and then deleting its existing external id reports removed count 1 but
leaves the index holding 1 vector while the mapping is empty, so
`index.count() == len(id_mapping)` is violated right after a successful
delete (and `save_faiss` then persists a snapshot that
`_try_load_faiss_file` itself rejects as inconsistent). -/
theorem add_delete_count_mismatch_hnsw :
    (delete_embedding (create_embedding ⟨IndexKind.hnsw, 0, []⟩ 7).1 7).2 = 1
    ∧ (delete_embedding (create_embedding ⟨IndexKind.hnsw, 0, []⟩ 7).1 7).1.ntotal
        ≠ (delete_embedding (create_embedding ⟨IndexKind.hnsw, 0, []⟩ 7).1
            7).1.id_mapping.length := by
  decide

/-- C1 (amended): after each `add` the count invariant is preserved (from
any state satisfying it whose next ordinal is not already a mapping key);
after a `delete` of an existing external id the invariant fails on the
default HNSW kind (nothing is physically removed, so the index count
strictly exceeds the mapping size: soft delete); on the Flat kind the
counts remain equal only when every ordinal mapped to the deleted id is
still in range `[0, ntotal)` — once a mapping key has gone stale (keys are
not renumbered after an earlier Flat removal), `remove_ids` silently skips
it and the index count again strictly exceeds the mapping size. -/
theorem add_delete_count_invariant (s : FaissState) (new_item_id del_item_id : Int)
    (hlen : s.id_mapping.length = s.ntotal)
    (hfresh : ∀ p ∈ s.id_mapping, p.1 ≠ (s.ntotal : Int)) :
    ((create_embedding s new_item_id).1.id_mapping.length
        = (create_embedding s new_item_id).1.ntotal)
    ∧ (s.kind = IndexKind.hnsw
        → (∃ p ∈ s.id_mapping, p.2 = del_item_id)
        → (delete_embedding s del_item_id).1.id_mapping.length
            < (delete_embedding s del_item_id).1.ntotal)
    ∧ (s.kind = IndexKind.flat
        → (∀ p ∈ s.id_mapping, p.2 = del_item_id
            → 0 ≤ p.1 ∧ p.1 < (s.ntotal : Int))
        → (delete_embedding s del_item_id).1.id_mapping.length
            = (delete_embedding s del_item_id).1.ntotal)
    ∧ (s.kind = IndexKind.flat
        → (∃ p ∈ s.id_mapping, p.2 = del_item_id ∧ ¬p.1 < (s.ntotal : Int))
        → (delete_embedding s del_item_id).1.id_mapping.length
            < (delete_embedding s del_item_id).1.ntotal) := by
  refine ⟨?_, ?_, ?_, ?_⟩
  · have hkey : ((s.ntotal + 1 : Nat) : Int) - 1 = (s.ntotal : Int) := by
      push_cast
      ring
    have hnotin : s.id_mapping.any
        (fun p => p.1 == ((s.ntotal + 1 : Nat) : Int) - 1) = false := by
      rw [Bool.eq_false_iff]
      intro hany
      simp only [List.any_eq_true] at hany
      obtain ⟨p, hp, hbe⟩ := hany
      rw [hkey, beq_iff_eq] at hbe
      exact hfresh p hp hbe
    show (dictInsert s.id_mapping (((s.ntotal + 1 : Nat) : Int) - 1)
        new_item_id).length = s.ntotal + 1
    unfold dictInsert
    rw [if_neg (by rw [hnotin]; simp)]
    rw [List.length_append, hlen]
    rfl
  · intro hk hex
    obtain ⟨p, hp, hpv⟩ := hex
    have hfil : s.id_mapping.filter (fun p => p.2 == del_item_id) ≠ [] := by
      intro hcontr
      have := List.filter_eq_nil_iff.mp hcontr p hp
      simp [hpv] at this
    rw [delete_embedding_of_present s del_item_id hfil]
    simp only [hk, removeIdsWorks, Bool.false_eq_true, if_false, Nat.sub_zero]
    rw [← hlen]
    exact List.length_filter_lt_length_iff_exists.mpr ⟨p, hp, by simp [hpv]⟩
  · intro hk hinrange
    by_cases hfil : s.id_mapping.filter (fun p => p.2 == del_item_id) = []
    · have hsame : delete_embedding s del_item_id = (s, 0) := by
        unfold delete_embedding
        rw [if_pos (by simp [List.isEmpty_iff, List.map_eq_nil_iff, hfil])]
      rw [hsame]
      exact hlen
    · rw [delete_embedding_of_present s del_item_id hfil]
      simp only [hk, removeIdsWorks, if_true]
      have hall : ((s.id_mapping.filter (fun p => p.2 == del_item_id)).map
            (fun p => p.1)).filter (fun k => 0 ≤ k && k < (s.ntotal : Int))
          = (s.id_mapping.filter (fun p => p.2 == del_item_id)).map
            (fun p => p.1) := by
        rw [List.filter_eq_self]
        intro k hk2
        obtain ⟨q, hq, rfl⟩ := List.mem_map.mp hk2
        obtain ⟨hqmem, hqval⟩ := List.mem_filter.mp hq
        obtain ⟨h0, h1⟩ := hinrange q hqmem (by simpa using hqval)
        simp [h0, h1]
      rw [hall, List.length_map]
      have hpart := length_filter_add_length_filter_not s.id_mapping
        (fun p => p.2 == del_item_id)
      omega
  · intro hk hex
    obtain ⟨p, hp, hpv, hpo⟩ := hex
    have hfil : s.id_mapping.filter (fun p => p.2 == del_item_id) ≠ [] := by
      intro hcontr
      have := List.filter_eq_nil_iff.mp hcontr p hp
      simp [hpv] at this
    rw [delete_embedding_of_present s del_item_id hfil]
    simp only [hk, removeIdsWorks, if_true]
    have hMP : p ∈ s.id_mapping.filter (fun p => p.2 == del_item_id) :=
      List.mem_filter.mpr ⟨hp, by simp [hpv]⟩
    have hr_lt : (((s.id_mapping.filter (fun p => p.2 == del_item_id)).map
          (fun p => p.1)).filter (fun k => 0 ≤ k && k < (s.ntotal : Int))).length
        < ((s.id_mapping.filter (fun p => p.2 == del_item_id)).map
          (fun p => p.1)).length := by
      refine List.length_filter_lt_length_iff_exists.mpr
        ⟨p.1, List.mem_map_of_mem _ hMP, ?_⟩
      simp [hpo]
    rw [List.length_map] at hr_lt
    have hP_le : (s.id_mapping.filter (fun p => p.2 == del_item_id)).length
        ≤ s.id_mapping.length := List.length_filter_le _ _
    have hpart := length_filter_add_length_filter_not s.id_mapping
      (fun p => p.2 == del_item_id)
    omega

/-- Witness for C1 (amended) at concrete inputs: from a consistent
two-vector HNSW store, an add preserves the count invariant and a delete of
existing id 7 leaves the mapping strictly smaller than the index count; and
from the Flat state with ntotal 1 and the stale mapping entry 2 -> 42
(reachable after two earlier Flat deletes), deleting 42 also leaves the
mapping strictly smaller than the index count. -/
theorem add_delete_count_invariant_witness :
    ((create_embedding ⟨IndexKind.hnsw, 2, [(0, 7), (1, 9)]⟩ 11).1.id_mapping.length
        = (create_embedding ⟨IndexKind.hnsw, 2, [(0, 7), (1, 9)]⟩ 11).1.ntotal)
    ∧ (delete_embedding ⟨IndexKind.hnsw, 2, [(0, 7), (1, 9)]⟩ 7).1.id_mapping.length
        < (delete_embedding ⟨IndexKind.hnsw, 2, [(0, 7), (1, 9)]⟩ 7).1.ntotal
    ∧ (delete_embedding ⟨IndexKind.flat, 1, [(2, 42)]⟩ 42).1.id_mapping.length
        < (delete_embedding ⟨IndexKind.flat, 1, [(2, 42)]⟩ 42).1.ntotal := by
  have h := add_delete_count_invariant ⟨IndexKind.hnsw, 2, [(0, 7), (1, 9)]⟩ 11 7
    (by decide) (by decide)
  have hflat := add_delete_count_invariant ⟨IndexKind.flat, 1, [(2, 42)]⟩ 11 42
    (by decide) (by decide)
  exact ⟨h.1, h.2.1 rfl ⟨(0, 7), by decide, rfl⟩,
    hflat.2.2.2 rfl ⟨(2, 42), by decide, rfl, by decide⟩⟩

/-- C9: delete is idempotent at the external-id level: deleting a mapped id
removes it with a positive removed count, a second delete (and any delete of
an unmapped id) returns removed count 0 rather than an error, and after the
first delete the id can never appear in a search result, since the search
loop emits only ids read from the mapping. -/
theorem delete_idempotent (s : FaissState) (item_id : Int) :
    (s.id_mapping.any (fun p => p.2 == item_id) = true
      → 0 < (delete_embedding s item_id).2
        ∧ (delete_embedding (delete_embedding s item_id).1 item_id).2 = 0
        ∧ ∀ (k : Nat) (cands : List (Int × Rat)),
            item_id ∉ (search_filter (delete_embedding s item_id).1.id_mapping
              k cands).1)
    ∧ (s.id_mapping.any (fun p => p.2 == item_id) = false
      → (delete_embedding s item_id).2 = 0) := by
  constructor
  · intro hany
    obtain ⟨p, hp, hpb⟩ := List.any_eq_true.mp hany
    have hfil : s.id_mapping.filter (fun p => p.2 == item_id) ≠ [] := by
      intro hcontr
      exact List.filter_eq_nil_iff.mp hcontr p hp hpb
    refine ⟨?_, ?_, ?_⟩
    · rw [delete_embedding_of_present s item_id hfil]
      exact Nat.lt_of_lt_of_le Nat.zero_lt_one (Nat.le_max_right _ 1)
    · exact delete_embedding_zero_of_absent _ _
        (delete_embedding_removes_value s item_id)
    · intro k cands
      exact search_filter_not_mem _ _ (delete_embedding_removes_value s item_id)
        k cands
  · intro hany
    refine delete_embedding_zero_of_absent s item_id ?_
    intro p hp hpv
    rw [Bool.eq_false_iff] at hany
    exact hany (List.any_eq_true.mpr ⟨p, hp, by simp [hpv]⟩)

/-- C2 fails on the code: with a non-empty index (one vector, id 42 mapped)
whose single candidate scores 0.2, below the 0.3 threshold, the search
returns the empty list: no threshold relaxation or backfill exists, and the
`MIN_RESULTS_TO_RETURN` floor is never consulted. -/
theorem search_no_backfill_counterexample :
    (FaissState.mk IndexKind.hnsw 1 [(0, 42)]).ntotal ≠ 0
    ∧ search_embedding (FaissState.mk IndexKind.hnsw 1 [(0, 42)]) 10
        [(0, mkRat 1 5)] = ([], []) := by
  decide

/-- C2 (amended): the search keeps, in candidate order, at most `top_k`
results, each scoring at least `SIMILARITY_THRESHOLD` and each drawn from
the id mapping; the threshold is never relaxed and no backfill occurs, so
fewer than `MIN_RESULTS_TO_RETURN` results (even none) can be returned on a
non-empty index. -/
theorem search_filter_threshold_rule (mapping : List (Int × Int)) (top_k : Nat)
    (cands : List (Int × Rat)) :
    (search_filter mapping top_k cands).1.length ≤ top_k
    ∧ (search_filter mapping top_k cands).1.length
        = (search_filter mapping top_k cands).2.length
    ∧ (∀ sc ∈ (search_filter mapping top_k cands).2, SIMILARITY_THRESHOLD ≤ sc)
    ∧ (∀ x ∈ (search_filter mapping top_k cands).1, ∃ p ∈ mapping, p.2 = x) := by
  induction cands generalizing top_k with
  | nil => simp [search_filter]
  | cons c rest ih =>
    obtain ⟨idx, dist⟩ := c
    cases top_k with
    | zero => simp [search_filter]
    | succ b =>
      rw [search_filter]
      by_cases hidx : (idx == -1) = true
      · simpa [hidx] using ih (b + 1)
      · rcases hf : mapping.find? (fun p => p.1 == idx) with _ | m
        · simpa [hidx, hf] using ih (b + 1)
        · by_cases hthr : SIMILARITY_THRESHOLD ≤ dist
          · simp only [hidx, hf, hthr, Bool.false_eq_true, if_false, if_true,
              List.length_cons, List.mem_cons]
            obtain ⟨ih1, ih2, ih3, ih4⟩ := ih b
            refine ⟨by omega, by omega, ?_, ?_⟩
            · rintro sc (rfl | hsc)
              · exact hthr
              · exact ih3 sc hsc
            · rintro x (rfl | hx)
              · exact ⟨m, List.mem_of_find?_eq_some hf, rfl⟩
              · exact ih4 x hx
          · simpa [hidx, hf, hthr] using ih (b + 1)

/-- C3: when the snapshot fails the consistency check (zero-length index
file, or index count differing from the mapping size), initialization does
not throw: both snapshot files are renamed aside with the
`.corrupted_<timestamp>` suffix, the active index path no longer exists (the
file is renamed, not deleted), and the store falls back to an empty
in-memory index with count 0 and an empty mapping. -/
theorem initialize_corrupted_recovery (configured_kind : IndexKind)
    (ixf : IndexFile) (mpf : MappingFile) (ts : String)
    (h : ixf.size = 0 ∨ ixf.ntotal ≠ mpf.mapping.length) :
    (initialize_faiss configured_kind (some ixf) (some mpf) ts).threw = false
    ∧ (initialize_faiss configured_kind (some ixf) (some mpf) ts).state.ntotal = 0
    ∧ (initialize_faiss configured_kind (some ixf) (some mpf) ts).state.id_mapping = []
    ∧ (FAISS_INDEX_PATH ++ ".corrupted_" ++ ts)
        ∈ (initialize_faiss configured_kind (some ixf) (some mpf) ts).files
    ∧ FAISS_INDEX_PATH
        ∉ (initialize_faiss configured_kind (some ixf) (some mpf) ts).files := by
  have hload : try_load_faiss_file (some ixf) (some mpf) = none := by
    unfold try_load_faiss_file
    dsimp only
    split_ifs with h1 h2 h3 h4
    · rfl
    · rfl
    · rfl
    · rfl
    · exfalso
      rcases h with h0 | hne
      · exact h1 (by simp [h0])
      · exact hne (by simpa using h4)
  have hfiles : (initialize_faiss configured_kind (some ixf) (some mpf) ts).files
      = [FAISS_INDEX_PATH ++ ".corrupted_" ++ ts,
         FAISS_MAPPING_PATH ++ ".corrupted_" ++ ts] := by
    simp [initialize_faiss, hload]
  refine ⟨?_, ?_, ?_, ?_, ?_⟩
  · simp [initialize_faiss, hload]
  · simp [initialize_faiss, hload, emptyIndex]
  · simp [initialize_faiss, hload, emptyIndex]
  · rw [hfiles]
    exact List.mem_cons_self _ _
  · rw [hfiles]
    intro hmem
    have h31 : FAISS_INDEX_PATH.length = 31 := rfl
    have h30 : FAISS_MAPPING_PATH.length = 30 := rfl
    have h11 : ".corrupted_".length = 11 := rfl
    simp only [List.mem_cons, List.not_mem_nil, or_false] at hmem
    rcases hmem with h1 | h2
    · have := congrArg String.length h1
      rw [String.length_append, String.length_append] at this
      omega
    · have := congrArg String.length h2
      rw [String.length_append, String.length_append] at this
      omega

/-- Witness for C3 at a concrete input: a zero-length index snapshot next to
an empty mapping snapshot is archived with the timestamp suffix and the
store restarts empty without throwing. -/
theorem initialize_corrupted_recovery_witness :
    (initialize_faiss IndexKind.hnsw (some ⟨IndexKind.hnsw, 0, true, 0⟩)
        (some ⟨true, []⟩) "20250101_120000").threw = false
    ∧ (initialize_faiss IndexKind.hnsw (some ⟨IndexKind.hnsw, 0, true, 0⟩)
        (some ⟨true, []⟩) "20250101_120000").state.ntotal = 0
    ∧ (initialize_faiss IndexKind.hnsw (some ⟨IndexKind.hnsw, 0, true, 0⟩)
        (some ⟨true, []⟩) "20250101_120000").state.id_mapping = []
    ∧ (FAISS_INDEX_PATH ++ ".corrupted_" ++ "20250101_120000")
        ∈ (initialize_faiss IndexKind.hnsw (some ⟨IndexKind.hnsw, 0, true, 0⟩)
            (some ⟨true, []⟩) "20250101_120000").files
    ∧ FAISS_INDEX_PATH
        ∉ (initialize_faiss IndexKind.hnsw (some ⟨IndexKind.hnsw, 0, true, 0⟩)
            (some ⟨true, []⟩) "20250101_120000").files :=
  initialize_corrupted_recovery IndexKind.hnsw ⟨IndexKind.hnsw, 0, true, 0⟩
    ⟨true, []⟩ "20250101_120000" (Or.inl rfl)

/-- C4 fails on the code: injecting a failure of the second `shutil.move`
(the mapping move) makes `save_faiss` raise with the temp files cleaned up,
but the active index file was already replaced by the new snapshot in the
first move, so the previous durable snapshot did not remain unchanged. -/
theorem save_faiss_move_failure_counterexample :
    (save_faiss ⟨some ⟨5, 0⟩, some ⟨3, 0⟩, none, none, none⟩ ⟨7, 1⟩ ⟨4, 1⟩ false
        (some SaveOp.moveMapping)).2 = true
    ∧ (save_faiss ⟨some ⟨5, 0⟩, some ⟨3, 0⟩, none, none, none⟩ ⟨7, 1⟩ ⟨4, 1⟩ false
        (some SaveOp.moveMapping)).1.activeIndex
      ≠ (SaveDisk.mk (some ⟨5, 0⟩) (some ⟨3, 0⟩) none none none).activeIndex := by
  decide

/-- C4 (amended): whenever `save_faiss` raises, both temporary files are
removed and the active mapping file is unchanged; the active index file is
also unchanged except when the failure hits the mapping move, which runs
after the index move has already replaced the active index with the new
snapshot (the previous index then survives only as the `.backup` copy). -/
theorem save_faiss_error_cleanup (d : SaveDisk) (newIndex newMapping : FileBlob)
    (diskFull : Bool) (failAt : Option SaveOp)
    (h : (save_faiss d newIndex newMapping diskFull failAt).2 = true) :
    (save_faiss d newIndex newMapping diskFull failAt).1.tempIndex = none
    ∧ (save_faiss d newIndex newMapping diskFull failAt).1.tempMapping = none
    ∧ (save_faiss d newIndex newMapping diskFull failAt).1.activeMapping
        = d.activeMapping
    ∧ ((save_faiss d newIndex newMapping diskFull failAt).1.activeIndex
          = d.activeIndex
        ∨ (failAt = some SaveOp.moveMapping
           ∧ (save_faiss d newIndex newMapping diskFull failAt).1.activeIndex
               = some newIndex)) := by
  cases diskFull with
  | true => simp [save_faiss, cleanupTemps]
  | false =>
    rcases failAt with _ | op
    · by_cases hz : newIndex.size = 0
      · simp [save_faiss, cleanupTemps, hz]
      · exact absurd h (by simp [save_faiss, hz])
    · cases op with
      | writeTempIndex => simp [save_faiss, cleanupTemps]
      | writeTempMapping => simp [save_faiss, cleanupTemps]
      | moveIndex =>
        by_cases hz : newIndex.size = 0
        · simp [save_faiss, cleanupTemps, hz]
        · simp [save_faiss, cleanupTemps, hz]
      | moveMapping =>
        by_cases hz : newIndex.size = 0
        · simp [save_faiss, cleanupTemps, hz]
        · simp [save_faiss, cleanupTemps, hz]

/-- Witness for C4 (amended) at a concrete input: a failed disk-space
pre-check aborts the save with the temps removed and both active snapshot
files untouched. -/
theorem save_faiss_error_cleanup_witness :
    (save_faiss ⟨some ⟨5, 0⟩, some ⟨3, 0⟩, none, none, none⟩ ⟨7, 1⟩ ⟨4, 1⟩ true
        none).1.tempIndex = none
    ∧ (save_faiss ⟨some ⟨5, 0⟩, some ⟨3, 0⟩, none, none, none⟩ ⟨7, 1⟩ ⟨4, 1⟩ true
        none).1.tempMapping = none
    ∧ (save_faiss ⟨some ⟨5, 0⟩, some ⟨3, 0⟩, none, none, none⟩ ⟨7, 1⟩ ⟨4, 1⟩ true
        none).1.activeMapping
        = (SaveDisk.mk (some ⟨5, 0⟩) (some ⟨3, 0⟩) none none none).activeMapping
    ∧ ((save_faiss ⟨some ⟨5, 0⟩, some ⟨3, 0⟩, none, none, none⟩ ⟨7, 1⟩ ⟨4, 1⟩ true
          none).1.activeIndex
          = (SaveDisk.mk (some ⟨5, 0⟩) (some ⟨3, 0⟩) none none none).activeIndex
        ∨ ((none : Option SaveOp) = some SaveOp.moveMapping
           ∧ (save_faiss ⟨some ⟨5, 0⟩, some ⟨3, 0⟩, none, none, none⟩ ⟨7, 1⟩ ⟨4, 1⟩
                true none).1.activeIndex = some ⟨7, 1⟩)) :=
  save_faiss_error_cleanup ⟨some ⟨5, 0⟩, some ⟨3, 0⟩, none, none, none⟩ ⟨7, 1⟩ ⟨4, 1⟩
    true none (by decide)
